import Mathlib

/-!
Verification of the bouncing-balls simulation controller.

The repository has two variants:
* `ball.py` — the "growth" variant: population grows on boundary collisions,
  radius of each new ball depends on the current population size.
* `ball2.py` — the "escape" variant: a rotating boundary with a gap; escaped
  balls are removed and replaced by two fresh balls at the center.

We embed the controller state and operations shallowly: positions and scalar
parameters are rationals, the random samples and random velocities consumed by
the code are explicit parameters, and engine/render/audio side effects are
reified as an explicit effect list.  The Euclidean-distance comparison
`sqrt (dx^2 + dy^2) > c` in the escape test (with `c = 430 > 0`) is embedded
as the exactly equivalent squared comparison `dx^2 + dy^2 > c^2`; the mouse
force, which divides by the distance itself, takes the distance as an extra
argument characterized by the hypotheses `0 ≤ dist` and `dist^2 = dx^2 + dy^2`.
-/

namespace BallSim

/-- RGB color triple, as in the Python tuples. -/
abbrev Color := ℕ × ℕ × ℕ

/-- The VIBGYOR palette shared by `ball.py` and `ball2.py`. -/
def vibgyor_colors : List Color :=
  [ (148, 0, 211),  -- Violet
    (75, 0, 130),   -- Indigo
    (0, 0, 255),    -- Blue
    (0, 255, 0),    -- Green
    (255, 255, 0),  -- Yellow
    (255, 127, 0),  -- Orange
    (255, 0, 0) ]   -- Red

/-- Shared color-assignment step of both `_create_ball` methods:
`color = self.vibgyor_colors[self.color_index]` followed by
`self.color_index = (self.color_index + 1) % len(self.vibgyor_colors)`. -/
def next_color (i : ℕ) : Color × ℕ :=
  (vibgyor_colors.getD i (0, 0, 0), (i + 1) % vibgyor_colors.length)

/-- The color index after `k` spawns, starting from the initial index 0. -/
def color_index_after : ℕ → ℕ
  | 0 => 0
  | k + 1 => (next_color (color_index_after k)).2

/-- The color assigned to the `k`-th spawned ball (counting from 0). -/
def spawn_color (k : ℕ) : Color :=
  (next_color (color_index_after k)).1

/-- Playfield geometry shared by both variants: width 1000, height 800. -/
def circle_center : ℚ × ℚ := (1000 / 2, 800 / 2)

/-- Boundary circle radius, both variants. -/
def circle_radius : ℚ := 380

/-- A boundary segment, recorded by the two bounding angles (in degrees) at
which its endpoints sit on the circle, together with its material constants. -/
structure Seg where
  startDeg : ℚ
  endDeg : ℚ
  elasticity : ℚ
  friction : ℚ
deriving DecidableEq, Repr

/-- `ball.py._create_circle_boundary`: 36 static segments, step 10°,
elasticity 1.0, friction 0.0, no gap. -/
def boundary_growth : List Seg :=
  (List.range 36).map (fun (i : ℕ) =>
    { startDeg := (i : ℚ) * 10, endDeg := ((i : ℚ) + 1) * 10,
      elasticity := 1, friction := 0 })

/-- `ball2.py._create_circle_boundary`: 60 slots, step `360 / 60`, a slot is
skipped when `0 < angle_deg < 40` (strict on both sides, as in the source);
elasticity 0.9, friction 0.5, attached to the kinematic ring body. -/
def boundary_escape : List Seg :=
  (List.range 60).filterMap (fun (i : ℕ) =>
    let step : ℚ := 360 / 60
    let angle_deg : ℚ := (i : ℚ) * step
    if 0 < angle_deg ∧ angle_deg < 40 then none
    else some { startDeg := angle_deg, endDeg := ((i : ℚ) + 1) * step,
                elasticity := 9 / 10, friction := 1 / 2 })

/-- An opaque handle to a loaded sound asset. -/
abbrev Sound := ℕ

/-- Side effects the controller issues to the audio backend. -/
inductive Effect
  | playSound
deriving DecidableEq, Repr

/-- `self.click_sound` after `__init__`'s try/except: the handle when the
asset loads, `None` when `pygame.mixer.Sound` raises; initialization itself
always completes. -/
def init_click_sound (loadResult : Except Unit Sound) : Option Sound :=
  match loadResult with
  | .ok s => some s
  | .error _ => none

/-! ## Growth variant (`ball.py`) -/

namespace Growth

/-- A `ColoredBall` of `ball.py`: engine body position, color, radius. -/
structure ColoredBall where
  pos : ℚ × ℚ
  color : Color
  radius : ℚ
deriving DecidableEq, Repr

/-- The mutable controller state of `ball.py` touched by the population
logic: `balls_count`, `colored_balls`, `color_index`. -/
structure GameState where
  balls_count : ℕ
  colored_balls : List ColoredBall
  color_index : ℕ
deriving DecidableEq, Repr

/-- `ball.py`: `self.ball_base_radius = 10`. -/
def ball_base_radius : ℚ := 10

/-- `BouncingBallsGame._create_ball`: radius
`ball_base_radius + balls_count * 1.3`, next palette color, ball returned to
the caller (the caller appends it); only `color_index` changes in the state. -/
def create_ball (s : GameState) (position : ℚ × ℚ) : ColoredBall × GameState :=
  let ball_radius := ball_base_radius + s.balls_count * (13 / 10)
  let c := next_color s.color_index
  (⟨position, c.1, ball_radius⟩, { s with color_index := c.2 })

/-- State after `__init__`: `balls_count = 1`, palette index 0, then
`_create_initial_ball` appends one ball at `(center.x - 50, center.y - 50)`. -/
def init_state : GameState :=
  let s0 : GameState := { balls_count := 1, colored_balls := [], color_index := 0 }
  let initial_pos : ℚ × ℚ := (circle_center.1 - 50, circle_center.2 - 50)
  let r := create_ball s0 initial_pos
  { r.2 with colored_balls := s0.colored_balls ++ [r.1] }

/-- `BouncingBallsGame._on_collision`: play the sound when the handle is
present; then, when the uniform sample is below `1 / balls_count`, create one
ball at the circle center, append it and increment `balls_count`.  The random
sample is an explicit argument; the emitted audio effects are returned
alongside the new state. -/
def on_collision (click_sound : Option Sound) (sample : ℚ) (s : GameState) :
    List Effect × GameState :=
  let effects := if click_sound.isSome then [Effect.playSound] else []
  if sample < 1 / (s.balls_count : ℚ) then
    let r := create_ball s circle_center
    (effects, { r.2 with colored_balls := r.2.colored_balls ++ [r.1],
                         balls_count := r.2.balls_count + 1 })
  else
    (effects, s)

/-- The state after a sequence of collision events (their samples listed in
order) starting from the freshly initialized game. -/
def run_collisions (click_sound : Option Sound) (samples : List ℚ) : GameState :=
  samples.foldl (fun s q => (on_collision click_sound q s).2) init_state

end Growth

/-! ## Escape variant (`ball2.py`) -/

namespace Escape

/-- A `ColoredBall` of `ball2.py`: position, initial velocity, color,
radius (always the fixed radius 15). -/
structure ColoredBall where
  pos : ℚ × ℚ
  vel : ℤ × ℤ
  color : Color
  radius : ℚ
deriving DecidableEq, Repr

/-- The mutable controller state of `ball2.py` touched by the population
logic: `colored_balls` and `color_index`. -/
structure GameState where
  colored_balls : List ColoredBall
  color_index : ℕ
deriving DecidableEq, Repr

/-- `ball2.py`: `self.ball_fixed_radius = 15`. -/
def ball_fixed_radius : ℚ := 15

/-- `BouncingBallsGame._create_ball` of `ball2.py`: constant radius, random
initial velocity (passed here as an explicit argument), next palette color,
and — unlike the growth variant — the ball is appended to `colored_balls`
inside `_create_ball` itself. -/
def create_ball (s : GameState) (position : ℚ × ℚ) (vel : ℤ × ℤ) : GameState :=
  let c := next_color s.color_index
  { colored_balls := s.colored_balls ++ [⟨position, vel, c.1, ball_fixed_radius⟩],
    color_index := c.2 }

/-- The escape test of `_handle_escaped_balls`:
`sqrt(dx**2 + dy**2) > circle_radius + 50`.  Since both sides are
nonnegative, this holds exactly when `dx^2 + dy^2 > (circle_radius + 50)^2`,
which is the form embedded here. -/
def escaped (b : ColoredBall) : Bool :=
  let dx := b.pos.1 - circle_center.1
  let dy := b.pos.2 - circle_center.2
  decide (dx ^ 2 + dy ^ 2 > (circle_radius + 50) ^ 2)

/-- The removal loop of `_handle_escaped_balls`: for each ball previously
collected in `balls_to_remove`, release it, play the sound when present, and
spawn two replacement balls at the center, consuming two random velocities
from the stream. -/
def respawn_loop (click_sound : Option Sound) :
    List ColoredBall → List (ℤ × ℤ) → GameState → List Effect × GameState
  | [], _, s => ([], s)
  | _ :: rest, vels, s =>
      let e := if click_sound.isSome then [Effect.playSound] else []
      let s1 := create_ball s circle_center (vels.getD 0 (0, 0))
      let s2 := create_ball s1 circle_center (vels.getD 1 (0, 0))
      let r := respawn_loop click_sound rest (vels.drop 2) s2
      (e ++ r.1, r.2)

/-- `BouncingBallsGame._handle_escaped_balls`: collect every ball whose
distance from the center exceeds `circle_radius + 50`, then remove each one
from the store (the kept balls stay in their original order) and spawn two
replacements at the center per removed ball.  The stream of random velocity
pairs is an explicit argument. -/
def handle_escaped_balls (click_sound : Option Sound) (s : GameState)
    (vels : List (ℤ × ℤ)) : List Effect × GameState :=
  let balls_to_remove := s.colored_balls.filter escaped
  let s1 : GameState :=
    { s with colored_balls := s.colored_balls.filter (fun b => !(escaped b)) }
  respawn_loop click_sound balls_to_remove vels s1

end Escape

/-! ## Frame order -/

/-- The actions performed by one iteration of `BouncingBallsGame.run`, in
both variants, as trace labels. -/
inductive FrameStep
  | handleEvents        -- `self._handle_events()`
  | applyMouseForce     -- `self._apply_mouse_repulsion()`
  | handleEscapedBalls  -- `self._handle_escaped_balls()` (escape variant)
  | draw                -- `self._draw()`
  | physicsStep         -- `self.space.step(1 / 60.0)`
  | angularIncrement    -- `self.ring_body.angular_velocity += 0.001` (escape)
  | displayFlip         -- `pygame.display.flip()`
deriving DecidableEq, Repr

/-- The body of `ball.py`'s main loop, in source order. -/
def frame_trace_growth : List FrameStep :=
  [.handleEvents, .applyMouseForce, .draw, .physicsStep, .displayFlip]

/-- The body of `ball2.py`'s main loop, in source order. -/
def frame_trace_escape : List FrameStep :=
  [.handleEvents, .applyMouseForce, .handleEscapedBalls, .draw, .physicsStep,
   .angularIncrement, .displayFlip]

/-! ## Mouse force field -/

/-- `BouncingBallsGame._apply_mouse_repulsion`, per ball: with
`dx = ball.x - mouse.x`, `dy = ball.y - mouse.y` and
`distance = sqrt(dx*dx + dy*dy)`, apply the force
`(dx / distance * strength, dy / distance * strength)` when
`0 < distance < radius`, and no force otherwise.  The (irrational) distance
is passed as an explicit argument; theorems about this definition
characterize it by `0 ≤ dist` and `dist ^ 2 = dx ^ 2 + dy ^ 2`. -/
def mouse_force (strength radius : ℚ) (ballPos mousePos : ℚ × ℚ)
    (dist : ℚ) : Option (ℚ × ℚ) :=
  let dx := ballPos.1 - mousePos.1
  let dy := ballPos.2 - mousePos.2
  if dist < radius ∧ dist > 0 then
    some (dx / dist * strength, dy / dist * strength)
  else
    none

/-- `ball.py`: `self.repulsion_radius = 100`. -/
def repulsion_radius_growth : ℚ := 100

/-- `ball.py`: `self.repulsion_strength = 1000`. -/
def repulsion_strength_growth : ℚ := 1000

/-- `ball2.py`: `self.repulsion_radius = 150`. -/
def repulsion_radius_escape : ℚ := 150

/-- `ball2.py`: `self.repulsion_strength = -15000`. -/
def repulsion_strength_escape : ℚ := -15000

/-! ## Theorems -/

/-- C7: in the growth variant, boundary construction with 36 segments and no
gap emits exactly 36 segments; consecutive start/end angles chain (each
segment starts where the previous one ends), every segment spans exactly 10
degrees, the spans sum to 360 degrees covering the circle from 0 to 360 with
no gaps and no overlaps, and every segment has elasticity 1.0 and
friction 0.0. -/
theorem growth_boundary_tiles_circle :
    boundary_growth.length = 36 ∧
    (∀ sg ∈ boundary_growth, sg.endDeg - sg.startDeg = 10) ∧
    List.Chain' (fun a b => a.endDeg = b.startDeg) boundary_growth ∧
    (boundary_growth.map (fun sg => sg.startDeg)).head? = some 0 ∧
    (boundary_growth.map (fun sg => sg.endDeg)).getLast? = some 360 ∧
    (boundary_growth.map (fun sg => sg.endDeg - sg.startDeg)).sum = 360 ∧
    (∀ sg ∈ boundary_growth, sg.elasticity = 1 ∧ sg.friction = 0) := by
  have hlen : boundary_growth.length = 36 := by
    rw [boundary_growth, List.length_map, List.length_range]
  have hspan : ∀ sg ∈ boundary_growth, sg.endDeg - sg.startDeg = 10 := by
    intro sg hsg
    rw [boundary_growth, List.mem_map] at hsg
    obtain ⟨i, _, rfl⟩ := hsg
    show ((i : ℚ) + 1) * 10 - (i : ℚ) * 10 = 10
    ring
  refine ⟨hlen, hspan, ?_, ?_, ?_, ?_, ?_⟩
  · rw [boundary_growth, List.chain'_map]
    have h36 : (36 : ℕ) = Nat.succ 35 := rfl
    rw [h36, List.chain'_range_succ]
    intro m _
    show ((m : ℚ) + 1) * 10 = ((m.succ : ℚ)) * 10
    push_cast
    ring
  · simp [boundary_growth, List.range_succ]
  · simp [boundary_growth, List.range_succ]
    norm_num
  · have hall : ∀ x ∈ boundary_growth.map (fun sg => sg.endDeg - sg.startDeg), x = 10 := by
      intro x hx
      rw [List.mem_map] at hx
      obtain ⟨sg, hsg, rfl⟩ := hx
      exact hspan sg hsg
    rw [List.sum_eq_card_nsmul _ 10 hall, List.length_map, hlen]
    norm_num
  · intro sg hsg
    rw [boundary_growth, List.mem_map] at hsg
    obtain ⟨i, _, rfl⟩ := hsg
    exact ⟨rfl, rfl⟩

/-- C3 counterexample: the claim says no emitted segment's start angle lies
in the half-open interval `[0, 40)`, but the gap test of the source is the
strict `0 < angle_deg < 40`, so the segment starting at angle 0 — which lies
in `[0, 40)` — is emitted. -/
theorem escape_boundary_gap_counterexample :
    ∃ sg ∈ boundary_escape, sg.startDeg = 0 ∧ 0 ≤ sg.startDeg ∧ sg.startDeg < 40 := by
  refine ⟨{ startDeg := ((0:ℕ) : ℚ) * (360 / 60), endDeg := (((0:ℕ) : ℚ) + 1) * (360 / 60),
            elasticity := 9 / 10, friction := 1 / 2 }, ?_, by norm_num, by norm_num, by norm_num⟩
  rw [boundary_escape, List.mem_filterMap]
  refine ⟨0, by simp, ?_⟩
  rw [if_neg]
  norm_num

/-- C3 amended: building the escape-variant boundary with 60 segments and
gap range `(0, 40)` emits exactly 54 segments — fewer than 60 — and no
emitted segment's start angle lies in the *open* interval `(0, 40)`;
the segment whose start angle is exactly 0 is emitted, because the source's
gap test `0 < angle_deg < 40` is strict on both sides. -/
theorem escape_boundary_gap_amended :
    boundary_escape.length = 54 ∧
    boundary_escape.length < 60 ∧
    (∀ sg ∈ boundary_escape, ¬ (0 < sg.startDeg ∧ sg.startDeg < 40)) ∧
    (∃ sg ∈ boundary_escape, sg.startDeg = 0) := by
  have hlen : boundary_escape.length = 54 := by
    norm_num [boundary_escape, List.range_succ, List.filterMap_cons]
  refine ⟨hlen, by rw [hlen]; norm_num, ?_, ?_⟩
  · intro sg hsg
    rw [boundary_escape, List.mem_filterMap] at hsg
    obtain ⟨i, hi, hf⟩ := hsg
    by_cases hc : (0:ℚ) < (i:ℚ) * (360/60) ∧ (i:ℚ) * (360/60) < 40
    · rw [if_pos hc] at hf
      exact absurd hf (by simp)
    · rw [if_neg hc] at hf
      obtain rfl := Option.some_injective _ hf
      exact hc
  · refine ⟨{ startDeg := ((0:ℕ) : ℚ) * (360 / 60), endDeg := (((0:ℕ) : ℚ) + 1) * (360 / 60),
              elasticity := 9 / 10, friction := 1 / 2 }, ?_, by norm_num⟩
    rw [boundary_escape, List.mem_filterMap]
    refine ⟨0, by simp, ?_⟩
    rw [if_neg]
    norm_num

/-- C8: the color palette has 7 entries, and the `k`-th spawned ball
(counting from 0, in either variant) receives the `(k mod 7)`-th palette
entry: the cyclic color index after `k` spawns is exactly `k mod 7`. -/
theorem color_cycle_mod (k : ℕ) :
    vibgyor_colors.length = 7 ∧
    color_index_after k = k % 7 ∧
    spawn_color k = vibgyor_colors.getD (k % 7) (0, 0, 0) := by
  have hidx : color_index_after k = k % 7 := by
    induction k with
    | zero => rfl
    | succ n ih =>
        show (next_color (color_index_after n)).2 = (n + 1) % 7
        rw [ih]
        show (n % 7 + 1) % vibgyor_colors.length = (n + 1) % 7
        have h7 : vibgyor_colors.length = 7 := rfl
        rw [h7]
        omega
  refine ⟨rfl, hidx, ?_⟩
  rw [spawn_color, hidx]
  rfl

namespace Growth

/-- One collision event never shrinks the ball list. -/
theorem on_collision_length_le (c : Option Sound) (q : ℚ) (s : GameState) :
    s.colored_balls.length ≤ ((on_collision c q s).2).colored_balls.length := by
  simp only [on_collision]
  split
  · simp [create_ball]
  · exact le_refl _

/-- Folding collision events never shrinks the ball list. -/
theorem foldl_collisions_length_le (c : Option Sound) :
    ∀ (l : List ℚ) (s : GameState),
      s.colored_balls.length ≤
        (l.foldl (fun s q => (on_collision c q s).2) s).colored_balls.length
  | [], _ => le_refl _
  | q :: l, s =>
      le_trans (on_collision_length_le c q s) (foldl_collisions_length_le c l _)

/-- One collision event preserves `balls_count = length colored_balls`. -/
theorem on_collision_count_inv (c : Option Sound) (q : ℚ) (s : GameState)
    (h : s.balls_count = s.colored_balls.length) :
    (on_collision c q s).2.balls_count = (on_collision c q s).2.colored_balls.length := by
  simp only [on_collision]
  split
  · simp [create_ball, h]
  · exact h

/-- Folding collision events preserves `balls_count = length colored_balls`. -/
theorem foldl_collisions_count_inv (c : Option Sound) :
    ∀ (l : List ℚ) (s : GameState), s.balls_count = s.colored_balls.length →
      (l.foldl (fun s q => (on_collision c q s).2) s).balls_count =
        (l.foldl (fun s q => (on_collision c q s).2) s).colored_balls.length
  | [], _, h => h
  | q :: l, s, h =>
      foldl_collisions_count_inv c l _ (on_collision_count_inv c q s h)

end Growth

/-- C1: in the growth variant, a collision event with current population
size `N = balls_count ≥ 1` spawns exactly one new ball at the playfield
center with radius `10 + N * 1.3` — appended to the ball list, with
`balls_count` incremented by one — exactly when the uniform random sample is
strictly less than `1 / N`; otherwise the state is unchanged. -/
theorem collision_spawn_iff (click_sound : Option Sound) (s : Growth.GameState)
    (sample : ℚ) (hN : 1 ≤ s.balls_count) :
    (sample < 1 / (s.balls_count : ℚ) →
       (Growth.on_collision click_sound sample s).2.colored_balls =
         s.colored_balls ++
           [⟨circle_center, vibgyor_colors.getD s.color_index (0, 0, 0),
             10 + (s.balls_count : ℚ) * (13 / 10)⟩] ∧
       (Growth.on_collision click_sound sample s).2.balls_count = s.balls_count + 1) ∧
    (¬ sample < 1 / (s.balls_count : ℚ) →
       (Growth.on_collision click_sound sample s).2 = s) := by
  constructor
  · intro h
    simp only [Growth.on_collision, if_pos h]
    exact ⟨rfl, rfl⟩
  · intro h
    simp only [Growth.on_collision, if_neg h]

/-- C1 witness: from the initial state (population 1), a collision with
sample 0 < 1/1 spawns, giving population 2. -/
theorem collision_spawn_iff_witness :
    (Growth.on_collision none 0 Growth.init_state).2.balls_count = 2 := by
  have h := collision_spawn_iff none Growth.init_state 0 Nat.le.refl
  have h2 := (h.1 (by show (0:ℚ) < 1 / ((1:ℕ):ℚ); norm_num)).2
  rw [h2]
  rfl

/-- C6: in the growth variant, starting from the initial single ball, the
population never decreases across any sequence of collision events: any
extension of the event sequence has at least as many balls, and the
population is always at least the initial 1. -/
theorem growth_population_monotone (click_sound : Option Sound) (l₁ l₂ : List ℚ) :
    (Growth.run_collisions click_sound l₁).colored_balls.length ≤
      (Growth.run_collisions click_sound (l₁ ++ l₂)).colored_balls.length ∧
    1 ≤ (Growth.run_collisions click_sound l₁).colored_balls.length := by
  constructor
  · rw [Growth.run_collisions, Growth.run_collisions, List.foldl_append]
    exact Growth.foldl_collisions_length_le click_sound l₂ _
  · have h1 : Growth.init_state.colored_balls.length = 1 := rfl
    calc 1 = Growth.init_state.colored_balls.length := h1.symm
      _ ≤ _ := Growth.foldl_collisions_length_le click_sound l₁ _

/-- C10: in the growth variant, `balls_count` always equals the number of
live balls: both are 1 after initialization, and after any sequence of
collision events the counter still equals the list length. -/
theorem balls_count_matches_population (click_sound : Option Sound) (samples : List ℚ) :
    (Growth.run_collisions click_sound samples).balls_count =
      (Growth.run_collisions click_sound samples).colored_balls.length ∧
    Growth.init_state.balls_count = 1 ∧
    Growth.init_state.colored_balls.length = 1 := by
  refine ⟨?_, rfl, rfl⟩
  exact Growth.foldl_collisions_count_inv click_sound samples Growth.init_state rfl

namespace Escape

/-- The respawn loop appends, to whatever the store holds, two balls at the
circle center per ball previously marked for removal. -/
theorem respawn_loop_spec (c : Option Sound) :
    ∀ (toRemove : List ColoredBall) (vels : List (ℤ × ℤ)) (s : GameState),
      ∃ spawned : List ColoredBall,
        (respawn_loop c toRemove vels s).2.colored_balls = s.colored_balls ++ spawned ∧
        spawned.length = 2 * toRemove.length ∧
        (∀ b ∈ spawned, b.pos = circle_center) := by
  intro toRemove
  induction toRemove with
  | nil =>
      intro vels s
      exact ⟨[], by simp [respawn_loop], rfl, by simp⟩
  | cons x rest ih =>
      intro vels s
      set s2 := create_ball (create_ball s circle_center (vels.getD 0 (0, 0)))
        circle_center (vels.getD 1 (0, 0)) with hs2
      obtain ⟨sp, h1, h2, h3⟩ := ih (vels.drop 2) s2
      have hs2b : s2.colored_balls =
          s.colored_balls ++
            [⟨circle_center, vels.getD 0 (0, 0), (next_color s.color_index).1, ball_fixed_radius⟩,
             ⟨circle_center, vels.getD 1 (0, 0),
              (next_color (next_color s.color_index).2).1, ball_fixed_radius⟩] := by
        simp [hs2, create_ball]
      refine ⟨⟨circle_center, vels.getD 0 (0, 0), (next_color s.color_index).1,
               ball_fixed_radius⟩ ::
              ⟨circle_center, vels.getD 1 (0, 0),
               (next_color (next_color s.color_index).2).1, ball_fixed_radius⟩ :: sp,
              ?_, ?_, ?_⟩
      · show (respawn_loop c (x :: rest) vels s).2.colored_balls = _
        have : (respawn_loop c (x :: rest) vels s).2 =
            (respawn_loop c rest (vels.drop 2) s2).2 := by
          simp [respawn_loop, hs2]
        rw [this, h1, hs2b]
        simp
      · simp [h2]
        ring
      · intro b hb
        simp only [List.mem_cons] at hb
        rcases hb with rfl | rfl | hb
        · rfl
        · rfl
        · exact h3 b hb

end Escape

/-- C2: one escape-handling tick removes exactly those balls whose Euclidean
distance from the center exceeds `circle_radius + 50 = 430` (the squared
comparison below is equivalent since both sides are nonnegative), keeps all
others in order, and appends exactly two replacement balls at the center per
removed ball; in particular a single ball at distance 431 from the center is
removed and replaced by exactly two balls at the center, and a single ball at
distance 380 is left untouched. -/
theorem escape_tick_spec (click_sound : Option Sound) (s : Escape.GameState)
    (vels : List (ℤ × ℤ)) :
    (∀ b : Escape.ColoredBall,
       Escape.escaped b = true ↔
         (b.pos.1 - circle_center.1) ^ 2 + (b.pos.2 - circle_center.2) ^ 2 >
           (circle_radius + 50) ^ 2) ∧
    (∃ spawned : List Escape.ColoredBall,
       (Escape.handle_escaped_balls click_sound s vels).2.colored_balls =
         s.colored_balls.filter (fun b => !(Escape.escaped b)) ++ spawned ∧
       spawned.length = 2 * (s.colored_balls.filter Escape.escaped).length ∧
       (∀ b ∈ spawned, b.pos = circle_center)) ∧
    ((Escape.handle_escaped_balls click_sound
        ⟨[⟨(circle_center.1 + (circle_radius + 50 + 1), circle_center.2), (0, 0), (148, 0, 211),
           Escape.ball_fixed_radius⟩], 0⟩ vels).2.colored_balls.map
        (fun b => b.pos)) = [circle_center, circle_center] ∧
    (Escape.handle_escaped_balls click_sound
        ⟨[⟨(circle_center.1 + circle_radius, circle_center.2), (0, 0), (148, 0, 211),
           Escape.ball_fixed_radius⟩], 0⟩ vels).2 =
      ⟨[⟨(circle_center.1 + circle_radius, circle_center.2), (0, 0), (148, 0, 211),
         Escape.ball_fixed_radius⟩], 0⟩ := by
  have hiff : ∀ b : Escape.ColoredBall,
      Escape.escaped b = true ↔
        (b.pos.1 - circle_center.1) ^ 2 + (b.pos.2 - circle_center.2) ^ 2 >
          (circle_radius + 50) ^ 2 := by
    intro b
    simp [Escape.escaped]
  refine ⟨hiff, ?_, ?_, ?_⟩
  · obtain ⟨sp, h1, h2, h3⟩ := Escape.respawn_loop_spec click_sound
      (s.colored_balls.filter Escape.escaped) vels
      ⟨s.colored_balls.filter (fun b => !(Escape.escaped b)), s.color_index⟩
    exact ⟨sp, h1, h2, h3⟩
  · have hb : Escape.escaped
        ⟨(circle_center.1 + (circle_radius + 50 + 1), circle_center.2), (0, 0), (148, 0, 211),
         Escape.ball_fixed_radius⟩ = true := by
      rw [hiff]
      norm_num [circle_center, circle_radius]
    simp only [Escape.handle_escaped_balls, List.filter_cons, List.filter_nil, hb,
               Bool.not_true, if_true, if_false, ite_true, ite_false,
               Bool.false_eq_true, eq_self_iff_true,
               Escape.respawn_loop, Escape.create_ball, List.nil_append, List.cons_append,
               List.append_nil, List.map_cons, List.map_nil]
  · have hb : Escape.escaped
        ⟨(circle_center.1 + circle_radius, circle_center.2), (0, 0), (148, 0, 211),
         Escape.ball_fixed_radius⟩ = false := by
      rw [Bool.eq_false_iff, Ne, hiff]
      norm_num [circle_center, circle_radius]
    simp only [Escape.handle_escaped_balls, List.filter_cons, List.filter_nil, hb,
               Bool.not_false, if_true, if_false, ite_true, ite_false,
               Bool.false_eq_true, eq_self_iff_true,
               Escape.respawn_loop, List.nil_append, List.append_nil]

/-- C4: the per-ball mouse force (with `dist` the Euclidean distance from
the pointer to the ball, characterized by `0 ≤ dist` and
`dist² = dx² + dy²`): a ball exactly at the pointer position receives no
force; a ball at distance strictly between 0 and the force-field radius
receives a force of squared magnitude exactly `strength²` that is the
`strength / dist`-multiple of the pointer-to-ball vector — a positive
multiple (repulsion, away from the pointer) when `strength > 0` and a
negative multiple (attraction, toward the pointer) when `strength < 0`. -/
theorem mouse_force_spec (strength radius : ℚ) (ballPos mousePos : ℚ × ℚ) (dist : ℚ)
    (hd : dist ^ 2 = (ballPos.1 - mousePos.1) ^ 2 + (ballPos.2 - mousePos.2) ^ 2)
    (hd0 : 0 ≤ dist) :
    (ballPos = mousePos → mouse_force strength radius ballPos mousePos dist = none) ∧
    (0 < dist → dist < radius →
       ∃ f : ℚ × ℚ, mouse_force strength radius ballPos mousePos dist = some f ∧
         f.1 ^ 2 + f.2 ^ 2 = strength ^ 2 ∧
         f.1 = (strength / dist) * (ballPos.1 - mousePos.1) ∧
         f.2 = (strength / dist) * (ballPos.2 - mousePos.2) ∧
         (0 < strength → 0 < strength / dist) ∧
         (strength < 0 → strength / dist < 0)) := by
  constructor
  · intro h
    subst h
    have h0 : dist ^ 2 = 0 := by rw [hd]; ring
    have hzero : dist = 0 := by
      exact pow_eq_zero_iff (n := 2) (by norm_num) |>.mp h0
    rw [mouse_force, if_neg]
    rw [hzero]
    simp
  · intro h1 h2
    have hne : dist ≠ 0 := ne_of_gt h1
    refine ⟨((ballPos.1 - mousePos.1) / dist * strength,
             (ballPos.2 - mousePos.2) / dist * strength), ?_, ?_, ?_, ?_, ?_, ?_⟩
    · rw [mouse_force, if_pos ⟨h2, h1⟩]
    · show ((ballPos.1 - mousePos.1) / dist * strength) ^ 2 +
          ((ballPos.2 - mousePos.2) / dist * strength) ^ 2 = strength ^ 2
      field_simp
      nlinarith [hd]
    · show (ballPos.1 - mousePos.1) / dist * strength = _
      field_simp
      ring
    · show (ballPos.2 - mousePos.2) / dist * strength = _
      field_simp
      ring
    · intro hs
      exact div_pos hs h1
    · intro hs
      exact div_neg_of_neg_of_pos hs h1

/-- C4 witness: a ball at `(3, 4)` with the pointer at the origin, distance
5, inside the growth variant's field radius 100 with strength 1000. -/
theorem mouse_force_spec_witness :
    ((5 : ℚ) ^ 2 = (((3 : ℚ), (4 : ℚ)).1 - ((0 : ℚ), (0 : ℚ)).1) ^ 2 +
        (((3 : ℚ), (4 : ℚ)).2 - ((0 : ℚ), (0 : ℚ)).2) ^ 2) ∧
    (0 : ℚ) ≤ 5 ∧
    ((((3 : ℚ), (4 : ℚ)) = ((0 : ℚ), (0 : ℚ)) →
        mouse_force repulsion_strength_growth repulsion_radius_growth (3, 4) (0, 0) 5 = none) ∧
     (0 < (5 : ℚ) → (5 : ℚ) < repulsion_radius_growth →
        ∃ f : ℚ × ℚ,
          mouse_force repulsion_strength_growth repulsion_radius_growth (3, 4) (0, 0) 5 = some f ∧
          f.1 ^ 2 + f.2 ^ 2 = repulsion_strength_growth ^ 2 ∧
          f.1 = (repulsion_strength_growth / 5) * (((3 : ℚ), (4 : ℚ)).1 - ((0 : ℚ), (0 : ℚ)).1) ∧
          f.2 = (repulsion_strength_growth / 5) * (((3 : ℚ), (4 : ℚ)).2 - ((0 : ℚ), (0 : ℚ)).2) ∧
          (0 < repulsion_strength_growth → 0 < repulsion_strength_growth / 5) ∧
          (repulsion_strength_growth < 0 → repulsion_strength_growth / 5 < 0))) :=
  ⟨by norm_num, by norm_num,
   mouse_force_spec repulsion_strength_growth repulsion_radius_growth (3, 4) (0, 0) 5
     (by norm_num) (by norm_num)⟩

/-- C5 counterexample: the claim requires rendering to happen after the
physics step of the same frame, but in both variants' main loops `_draw()`
is called before `space.step(1/60)`. -/
theorem frame_order_counterexample :
    frame_trace_growth.indexOf .draw < frame_trace_growth.indexOf .physicsStep ∧
    frame_trace_escape.indexOf .draw < frame_trace_escape.indexOf .physicsStep := by
  constructor <;> decide

/-- C5 amended: each loop iteration performs, in this fixed order: input
polling, force-field application, escape handling (escape variant only),
rendering, the 1/60-second physics step, the angular-velocity increment
(escape variant only), and the display flip — so rendering happens *before*
the physics step of the same frame, and force application and escape
handling precede the step. -/
theorem frame_order_amended :
    frame_trace_growth.indexOf .handleEvents < frame_trace_growth.indexOf .applyMouseForce ∧
    frame_trace_growth.indexOf .applyMouseForce < frame_trace_growth.indexOf .draw ∧
    frame_trace_growth.indexOf .draw < frame_trace_growth.indexOf .physicsStep ∧
    frame_trace_growth.indexOf .physicsStep < frame_trace_growth.indexOf .displayFlip ∧
    frame_trace_escape.indexOf .handleEvents < frame_trace_escape.indexOf .applyMouseForce ∧
    frame_trace_escape.indexOf .applyMouseForce < frame_trace_escape.indexOf .handleEscapedBalls ∧
    frame_trace_escape.indexOf .handleEscapedBalls < frame_trace_escape.indexOf .draw ∧
    frame_trace_escape.indexOf .draw < frame_trace_escape.indexOf .physicsStep ∧
    frame_trace_escape.indexOf .physicsStep < frame_trace_escape.indexOf .angularIncrement ∧
    frame_trace_escape.indexOf .angularIncrement < frame_trace_escape.indexOf .displayFlip := by
  refine ⟨?_, ?_, ?_, ?_, ?_, ?_, ?_, ?_, ?_, ?_⟩ <;> decide

namespace Escape

/-- With no sound handle, the respawn loop emits no audio effect. -/
theorem respawn_loop_effects_none :
    ∀ (toRemove : List ColoredBall) (vels : List (ℤ × ℤ)) (s : GameState),
      (respawn_loop none toRemove vels s).1 = []
  | [], _, _ => rfl
  | _ :: rest, vels, s => by
      simp [respawn_loop, respawn_loop_effects_none rest (vels.drop 2)]

/-- The state the respawn loop produces does not depend on the sound handle. -/
theorem respawn_loop_state_sound_irrel (c : Option Sound) :
    ∀ (toRemove : List ColoredBall) (vels : List (ℤ × ℤ)) (s : GameState),
      (respawn_loop c toRemove vels s).2 = (respawn_loop none toRemove vels s).2
  | [], _, _ => rfl
  | _ :: rest, vels, s => by
      simp [respawn_loop, respawn_loop_state_sound_irrel c rest (vels.drop 2)]

end Escape

/-- C9: when the sound asset fails to load, initialization still completes
with the handle absent (`none`); with the handle absent, a collision event
and an escape tick emit no audio effect yet produce exactly the same state
transition as with a handle present — silent degradation, never an error —
and with a handle present the growth collision handler plays the sound
exactly once per collision. -/
theorem sound_failure_degrades_silently :
    (∀ e : Unit, init_click_sound (.error e) = none) ∧
    (∀ snd : Sound, init_click_sound (.ok snd) = some snd) ∧
    (∀ (sample : ℚ) (s : Growth.GameState),
       (Growth.on_collision none sample s).1 = [] ∧
       ∀ c : Option Sound,
         (Growth.on_collision c sample s).2 = (Growth.on_collision none sample s).2) ∧
    (∀ (snd : Sound) (sample : ℚ) (s : Growth.GameState),
       (Growth.on_collision (some snd) sample s).1 = [Effect.playSound]) ∧
    (∀ (s : Escape.GameState) (vels : List (ℤ × ℤ)),
       (Escape.handle_escaped_balls none s vels).1 = [] ∧
       ∀ c : Option Sound,
         (Escape.handle_escaped_balls c s vels).2 =
           (Escape.handle_escaped_balls none s vels).2) := by
  refine ⟨fun _ => rfl, fun _ => rfl, ?_, ?_, ?_⟩
  · intro sample s
    constructor
    · simp only [Growth.on_collision]
      split <;> rfl
    · intro c
      simp only [Growth.on_collision]
      split <;> rfl
  · intro snd sample s
    simp only [Growth.on_collision]
    split <;> rfl
  · intro s vels
    exact ⟨Escape.respawn_loop_effects_none _ _ _,
           fun c => Escape.respawn_loop_state_sound_irrel c _ _ _⟩

end BallSim
